import Mathlib

/-!
Formal model of the email productivity dashboard
(src/email-productivity-dashboard.tsx), covering the credential and sync
lifecycle, the enrichment queue, and the reply draft lifecycle.

Strings are modelled by Lean String values; the JavaScript string helpers
(trim, toLowerCase, split on whitespace, the specific regular expressions
used by the code) are embedded as executable functions over character
lists.  Base64url encoding and MIME body extraction are not modelled in
depth: no studied property inspects the encoded payload, so the request
types carry the structured inputs of buildReplyMessage instead of the
encoded RFC822 text, and a fetched message carries its already-decoded
body text in the field bodyText.
-/

/-- Characters treated as whitespace by the JavaScript regular expression
class backslash-s and by String.prototype.trim (restricted to the ASCII
range, which covers every string manipulated here). -/
def isJsSpace (c : Char) : Bool :=
  c = ' ' || c = '\t' || c = '\n' || c = '\r' || c = '\x0b' || c = '\x0c'

/-- Character-list form of JavaScript trim: drop leading and trailing
whitespace. -/
def trimChars (l : List Char) : List Char :=
  ((l.dropWhile isJsSpace).reverse.dropWhile isJsSpace).reverse

/-- JavaScript String.prototype.trim on Lean strings. -/
def jsTrim (s : String) : String := String.mk (trimChars s.data)

/-- JavaScript String.prototype.toLowerCase, restricted to ASCII. -/
def jsToLower (s : String) : String := String.mk (s.data.map Char.toLower)

/-- Bool test that pat occurs as a contiguous substring of l.  This embeds
RegExp.prototype.test for a regular expression consisting of a plain
word. -/
def containsChars (pat : List Char) : List Char → Bool
  | [] => pat.isPrefixOf ([] : List Char)
  | c :: rest => pat.isPrefixOf (c :: rest) || containsChars pat rest

/-- Content of the first angle-bracket group matched by the regular
expression slash-langle-([^>]+)-rangle-slash: the leftmost occurrence of
an opening angle bracket that is followed by at least one character and
then a closing angle bracket yields the characters in between. -/
def angleContent : List Char → Option (List Char)
  | [] => none
  | c :: rest =>
    if c = '<' then
      let content := rest.takeWhile (fun d => d ≠ '>')
      if content.isEmpty then angleContent rest
      else if (rest.dropWhile (fun d => d ≠ '>')).isEmpty then angleContent rest
      else some content
    else angleContent rest

/-- Characters removed by the replace call with character class
angle-brackets-and-comma in extractEmailAddress. -/
def addrStripChar (c : Char) : Bool := c = '<' || c = '>' || c = ','

/-- Translation of extractEmailAddress: angle-bracket content wins,
otherwise a sender containing a space is split on whitespace and searched
for a token containing both an at sign and a dot, otherwise the trimmed
sender itself is returned. -/
def extractEmailAddress (value : String) : String :=
  if value = "" then ""
  else
    match angleContent value.data with
    | some content => jsTrim (String.mk content)
    | none =>
      let trimmed := trimChars value.data
      if trimmed.contains ' ' then
        match (trimmed.splitOnP isJsSpace).find?
            (fun part => part.contains '@' && part.contains '.') with
        | some emailLike => String.mk (emailLike.filter (fun c => !addrStripChar c))
        | none => ""
      else String.mk trimmed

/-- Fallback subject used by normalizeMessage and getReplyEnvelope. -/
def noSubjectText : String := "(no subject)"

/-- Lower-case reply marker checked by getReplyEnvelope. -/
def rePrefChars : List Char := ['r', 'e', ':']

/-- Reply marker prepended by getReplyEnvelope. -/
def reMarkerText : String := "Re: "

/-- Subject normalization performed inside getReplyEnvelope: trim the
subject (falling back to the no-subject placeholder when blank) and add
the reply marker unless the lower-cased subject already starts with
it. -/
def normalizeReplySubject (subject : String) : String :=
  let base := if jsTrim subject = "" then noSubjectText else jsTrim subject
  if rePrefChars.isPrefixOf (jsToLower base).data then base
  else reMarkerText ++ base

/-- Normalized message as produced by normalizeMessage (the GmailEmail
record of the source). -/
structure GmailEmail where
  id : String
  threadId : Option String
  messageId : String
  subject : String
  sender : String
  snippet : String
  body : String
  internalDate : Option String
deriving DecidableEq, Repr

/-- Error text thrown by getReplyEnvelope when no recipient could be
extracted. -/
def unparseableSenderText : String := "Unable to parse sender email address."

/-- Recipient and subject pair produced by getReplyEnvelope. -/
structure ReplyEnvelope where
  recipient : String
  subject : String
deriving DecidableEq, Repr

/-- Translation of getReplyEnvelope: extract the recipient from the
sender header, fail when the extraction is empty, and normalize the
subject. -/
def getReplyEnvelope (email : GmailEmail) : Except String ReplyEnvelope :=
  let recipient := extractEmailAddress email.sender
  if recipient = "" then Except.error unparseableSenderText
  else Except.ok ⟨recipient, normalizeReplySubject email.subject⟩

/-- Header entry of a fetched Gmail message payload. -/
structure MsgHeader where
  name : String
  value : String
deriving DecidableEq, Repr

/-- Fetched full message, as consumed by normalizeMessage.  The field
bodyText stands for the result of extractBodyFromPayload on the message
payload (base64url decoding and HTML stripping are not modelled since no
studied property reads the body). -/
structure RawGmailMessage where
  id : String
  threadId : Option String
  snippet : String
  internalDate : Option String
  headers : List MsgHeader
  bodyText : String
deriving DecidableEq, Repr

/-- Name of the protocol message id header. -/
def hdrMessageId : String := "Message-ID"

/-- Name of the subject header. -/
def hdrSubject : String := "Subject"

/-- Name of the sender header. -/
def hdrFrom : String := "From"

/-- Placeholder sender used by normalizeMessage. -/
def unknownSenderText : String := "Unknown sender"

/-- Translation of the headerValue helper inside normalizeMessage. -/
def headerValue (headers : List MsgHeader) (name : String) : String :=
  match headers.find? (fun h => h.name == name) with
  | some h => h.value
  | none => ""

/-- Translation of normalizeMessage. -/
def normalizeMessage (message : Option RawGmailMessage) : Option GmailEmail :=
  match message with
  | none => none
  | some m =>
    some {
      id := m.id
      threadId := m.threadId
      messageId := headerValue m.headers hdrMessageId
      subject := if headerValue m.headers hdrSubject = "" then noSubjectText
                 else headerValue m.headers hdrSubject
      sender := if headerValue m.headers hdrFrom = "" then unknownSenderText
                else headerValue m.headers hdrFrom
      snippet := m.snippet
      body := m.bodyText
      internalDate := m.internalDate }

/-- Connection status record (the gmailStatus state). -/
structure GmailStatus where
  loading : Bool
  connected : Bool
  error : String
  profile : Option String
  lastSync : Option String
deriving DecidableEq, Repr

/-- Dashboard state relevant to the credential and sync lifecycle: the
message snapshot, the selection, the status record, the in-memory access
token and the two durable storage entries. -/
structure DashState where
  emails : List GmailEmail
  selectedEmailId : Option String
  gmailStatus : GmailStatus
  googleToken : String
  storedAccessToken : Option String
  storedRefreshToken : Option String
deriving DecidableEq, Repr

/-- Message shown when permissions are missing. -/
def scopesMsgText : String :=
  "Missing permissions: Please reconnect Gmail and accept all requested permissions (compose, modify, and send)."

/-- Message shown when authentication expired. -/
def authExpiredText : String := "Authentication expired. Please reconnect to Gmail."

/-- Pattern of the insufficient-scopes regular expression. -/
def scopesPatternChars : List Char := "insufficient authentication scopes".data

/-- Word patterns of the invalid-credential regular expression. -/
def invalidWordChars : List Char := "invalid".data

/-- First alternative of the invalid-credential regular expression. -/
def credWordChars : List Char := "credential".data

/-- Second alternative of the invalid-credential regular expression. -/
def tokWordChars : List Char := "token".data

/-- Third alternative of the invalid-credential regular expression. -/
def authWordChars : List Char := "authentication".data

/-- Character test for the dot metacharacter of a JavaScript regular
expression without the dotAll flag: any character except a line
terminator (restricted to ASCII terminators). -/
def notLineBreak (c : Char) : Bool := !(c = '\n' || c = '\r')

/-- Test embedding the regular expression invalid-dot-star-alternatives:
some occurrence of the word invalid is followed, within the same line, by
one of the words credential, token or authentication.  The input is
expected already lower-cased. -/
def invalidCredPattern : List Char → Bool
  | [] => false
  | c :: rest =>
    (invalidWordChars.isPrefixOf (c :: rest) &&
      (let after := ((c :: rest).drop invalidWordChars.length).takeWhile notLineBreak
       containsChars credWordChars after || containsChars tokWordChars after ||
         containsChars authWordChars after))
    || invalidCredPattern rest

/-- Classification result of interpretGmailError: the surfaced message
and whether the connected flag is forced off. -/
structure ErrClassification where
  message : String
  forceDisconnect : Bool
deriving DecidableEq, Repr

/-- Translation of interpretGmailError applied to the message of a thrown
error. -/
def interpretGmailError (message : String) : ErrClassification :=
  let lower := (jsToLower message).data
  if containsChars scopesPatternChars lower then ⟨scopesMsgText, true⟩
  else if invalidCredPattern lower then ⟨authExpiredText, false⟩
  else ⟨message, false⟩

/-- Error text used when no token is available. -/
def connectFirstText : String := "Connect Gmail first."

/-- Error text thrown when a single detail fetch fails. -/
def unableReadFullText : String := "Unable to read full message."

/-- Outcome of the inbox list call of a sync cycle. -/
inductive ListInboxResult where
  | ok (ids : List String)
  | http401
  | httpError (message : String)
deriving DecidableEq, Repr

/-- JavaScript or-else on the optional accessToken argument of
fetchEmails: an absent or empty argument falls back to the stored
googleToken state. -/
def firstNonEmpty (a : Option String) (b : String) : String :=
  match a with
  | some t => if t = "" then b else t
  | none => b

/-- State change of the catch branch of fetchEmails: classify the error
message and update only the status record. -/
def applyFetchFailure (s : DashState) (msg : String) : DashState :=
  let cls := interpretGmailError msg
  { s with gmailStatus := { s.gmailStatus with
      loading := false
      error := cls.message
      connected := if cls.forceDisconnect then false else s.gmailStatus.connected } }

/-- One sync cycle: a single invocation of fetchEmails, driven by the
outcome of the list call and by one detail-fetch outcome per listed id
(none meaning that detail fetch failed).  A 401 on the list call performs
the synchronous part of handle401Error: the in-memory token and the
stored access token are cleared; when a refresh token is stored, recovery
continues as a separate refreshAccessTokenStep followed by a fresh cycle,
otherwise the status is set to disconnected. -/
def fetchEmailsStep (s : DashState) (accessToken : Option String) (now : String)
    (listRes : ListInboxResult) (detail : String → Option RawGmailMessage) : DashState :=
  let token := firstNonEmpty accessToken s.googleToken
  if token = "" then
    { s with gmailStatus := { s.gmailStatus with error := connectFirstText } }
  else
    let s1 : DashState :=
      { s with gmailStatus := { s.gmailStatus with loading := true, error := "" } }
    match listRes with
    | .http401 =>
      let s2 : DashState := { s1 with googleToken := "", storedAccessToken := none }
      match s2.storedRefreshToken with
      | some _ => s2
      | none =>
        { s2 with gmailStatus := { s2.gmailStatus with
            connected := false
            loading := false
            error := authExpiredText
            lastSync := none } }
    | .httpError msg => applyFetchFailure s1 msg
    | .ok ids =>
      if ids.isEmpty then
        { s1 with emails := []
                  selectedEmailId := none
                  gmailStatus := { s1.gmailStatus with
                    loading := false
                    connected := true
                    lastSync := some now } }
      else if ids.all (fun i => (detail i).isSome) then
        let normalized :=
          (ids.map (fun i => normalizeMessage (detail i))).filterMap (fun x => x)
        { s1 with emails := normalized
                  selectedEmailId := normalized.head?.map GmailEmail.id
                  gmailStatus := { s1.gmailStatus with
                    loading := false
                    connected := true
                    lastSync := some now
                    error := "" } }
      else applyFetchFailure s1 unableReadFullText

/-- Body of the token endpoint response consumed by refreshAccessToken. -/
structure TokenEndpointResponse where
  accessToken : Option String
  errorDescription : Option String
deriving DecidableEq, Repr

/-- Error text set when the refresh grant fails. -/
def sessionExpiredText : String := "Session expired. Please reconnect to Gmail."

/-- State change of the catch branch of refreshAccessToken: the in-memory
token and both durable storage entries are cleared and the session is
disconnected. -/
def refreshFailureState (s : DashState) : DashState :=
  { s with googleToken := ""
           storedAccessToken := none
           storedRefreshToken := none
           gmailStatus := { s.gmailStatus with
             connected := false
             loading := false
             error := sessionExpiredText
             lastSync := none } }

/-- One invocation of refreshAccessToken, driven by the token endpoint
response (none meaning the request itself threw).  A response without an
access token raises, and the catch branch clears all credentials.  On
success the new token is stored and published; the follow-up fetchEmails
call it makes is a fresh sync cycle, modelled by a separate
fetchEmailsStep. -/
def refreshAccessTokenStep (s : DashState) (resp : Option TokenEndpointResponse) : DashState :=
  match resp with
  | some r =>
    match r.accessToken with
    | some t =>
      { s with googleToken := t
               storedAccessToken := some t
               gmailStatus := { s.gmailStatus with error := "", connected := true } }
    | none => refreshFailureState s
  | none => refreshFailureState s

/-- Per-message reply draft record (the ReplyDraftState of the source).
Optional boolean fields are modelled as Bool with false for absent, and
the optional error and notice strings as String with the empty string for
absent, matching how the code reads them. -/
structure ReplyDraftState where
  loading : Bool
  content : String
  error : String
  draftId : Option String
  savedAt : Option String
  saving : Bool
  sending : Bool
  dirty : Bool
  notice : String
deriving DecidableEq, Repr

/-- Structured inputs of buildReplyMessage (the encoded RFC822 text is a
function of exactly these four values plus the fixed content-type
header).  The field toAddr is the To header value of the source. -/
structure ReplyMessageInput where
  toAddr : String
  subject : String
  body : String
  inReplyTo : String
deriving DecidableEq, Repr

/-- Provider request issued by the draft lifecycle: create a draft,
update an existing draft by id, or send a message. -/
inductive GmailDraftRequest where
  | createDraft (msg : ReplyMessageInput) (threadId : Option String)
  | updateDraft (draftId : String) (msg : ReplyMessageInput) (threadId : Option String)
  | sendMessage (msg : ReplyMessageInput) (threadId : Option String)
deriving DecidableEq, Repr

/-- Error text of a blank save. -/
def emptyDraftSaveText : String := "Draft is empty. Add text before saving."

/-- Error text of a blank send. -/
def emptyDraftSendText : String := "Draft is empty. Add text before sending."

/-- Notice after a successful save. -/
def draftSavedNoticeText : String := "Draft saved to Gmail."

/-- Notice after a successful send. -/
def replySentNoticeText : String := "Reply sent!"

/-- Error text surfaced on a 401 during a draft operation. -/
def authExpiredShortText : String := "Authentication expired"

/-- Network request issued by one saveDraftEdits invocation: none when
the trimmed content is blank, when no token is available, or when the
reply envelope cannot be derived (each of those paths returns or throws
before the fetch); otherwise an update addressed to the existing draft id
when one is recorded, and a create otherwise. -/
def saveDraftRequest (draft : ReplyDraftState) (email : GmailEmail)
    (tokenPresent : Bool) : Option GmailDraftRequest :=
  let body := jsTrim draft.content
  if body = "" then none
  else if !tokenPresent then none
  else
    match getReplyEnvelope email with
    | .error _ => none
    | .ok env =>
      match draft.draftId with
      | some d =>
        some (.updateDraft d ⟨env.recipient, env.subject, body, email.messageId⟩ email.threadId)
      | none =>
        some (.createDraft ⟨env.recipient, env.subject, body, email.messageId⟩ email.threadId)

/-- Outcome of the provider call of a draft save or send: the parsed
response ids on success, a 401, or another failure. -/
inductive DraftCallOutcome where
  | ok (id : Option String) (messageId : Option String)
  | http401
  | httpError (message : String)
deriving DecidableEq, Repr

/-- Draft record after one saveDraftEdits invocation.  A blank draft only
records the empty-draft error; otherwise the saving flag is set, the
operation runs, and on success the response id (falling back to the
nested message id) is captured as the draft id together with the save
timestamp. -/
def saveDraftEditsStep (draft : ReplyDraftState) (email : GmailEmail)
    (tokenPresent : Bool) (outcome : DraftCallOutcome) (now : String) : ReplyDraftState :=
  let body := jsTrim draft.content
  if body = "" then { draft with error := emptyDraftSaveText }
  else
    let d1 : ReplyDraftState := { draft with saving := true, notice := "" }
    if !tokenPresent then
      { d1 with saving := false, error := (interpretGmailError connectFirstText).message }
    else
      match getReplyEnvelope email with
      | .error msg => { d1 with saving := false, error := (interpretGmailError msg).message }
      | .ok _ =>
        match outcome with
        | .http401 => { d1 with saving := false, error := authExpiredShortText }
        | .httpError msg =>
          { d1 with saving := false, error := (interpretGmailError msg).message }
        | .ok idOpt msgIdOpt =>
          { d1 with saving := false
                    dirty := false
                    draftId := idOpt.orElse (fun _ => msgIdOpt)
                    savedAt := some now
                    notice := draftSavedNoticeText
                    error := "" }

/-- Network request issued by one sendReply invocation, under the same
preconditions as a save. -/
def sendReplyRequest (draft : ReplyDraftState) (email : GmailEmail)
    (tokenPresent : Bool) : Option GmailDraftRequest :=
  let body := jsTrim draft.content
  if body = "" then none
  else if !tokenPresent then none
  else
    match getReplyEnvelope email with
    | .error _ => none
    | .ok env =>
      some (.sendMessage ⟨env.recipient, env.subject, body, email.messageId⟩ email.threadId)

/-- Draft record after one sendReply invocation.  A blank draft only
records the empty-draft error; a successful send clears the dirty flag
and records the sent notice, leaving content, draft id and save timestamp
untouched (the follow-up fetchEmails call is a separate sync cycle). -/
def sendReplyStep (draft : ReplyDraftState) (email : GmailEmail)
    (tokenPresent : Bool) (outcome : DraftCallOutcome) : ReplyDraftState :=
  let body := jsTrim draft.content
  if body = "" then { draft with error := emptyDraftSendText }
  else
    let d1 : ReplyDraftState := { draft with sending := true, notice := "" }
    if !tokenPresent then
      { d1 with sending := false, error := (interpretGmailError connectFirstText).message }
    else
      match getReplyEnvelope email with
      | .error msg => { d1 with sending := false, error := (interpretGmailError msg).message }
      | .ok _ =>
        match outcome with
        | .http401 => { d1 with sending := false, error := authExpiredShortText }
        | .httpError msg =>
          { d1 with sending := false, error := (interpretGmailError msg).message }
        | .ok _ _ =>
          { d1 with sending := false
                    dirty := false
                    notice := replySentNoticeText
                    error := "" }

/-- Stored insight record (the EmailAnalysis of the source).  The
category is kept as a plain string because the stored value is whatever
the parsed response carried, with no runtime narrowing to the enum. -/
structure EmailAnalysis where
  summary : String
  category : String
  priority : Int
  action_items : List String
  deadlines : List String
  key_points : List String
deriving DecidableEq, Repr

/-- Default insight record spread under the parsed response. -/
def defaultAnalysis : EmailAnalysis :=
  { summary := ""
    category := "FYI"
    priority := 5
    action_items := []
    deadlines := []
    key_points := [] }

/-- Parsed JSON payload of an enrichment response: each field may be
absent. -/
structure RawAnalysisJson where
  summary : Option String
  category : Option String
  priority : Option Int
  action_items : Option (List String)
  deadlines : Option (List String)
  key_points : Option (List String)
deriving DecidableEq, Repr

/-- Object spread performed by runAnalysis: the parsed payload merged
over the defaults, field by field. -/
def spreadAnalysis (j : RawAnalysisJson) : EmailAnalysis :=
  { summary := j.summary.getD defaultAnalysis.summary
    category := j.category.getD defaultAnalysis.category
    priority := j.priority.getD defaultAnalysis.priority
    action_items := j.action_items.getD defaultAnalysis.action_items
    deadlines := j.deadlines.getD defaultAnalysis.deadlines
    key_points := j.key_points.getD defaultAnalysis.key_points }

/-- Closed category enum of the insight schema, from the json schema the
request declares. -/
def validCategory (c : String) : Bool :=
  c = "Urgent" || c = "Action Needed" || c = "Waiting on Others" || c = "FYI"

/-- Schema validity of a parsed enrichment payload, per the json schema
the request declares: all six fields required, category in the closed
enum, priority an integer between one and ten. -/
def schemaValidAnalysis (j : RawAnalysisJson) : Bool :=
  j.summary.isSome && j.action_items.isSome && j.deadlines.isSome && j.key_points.isSome &&
  (match j.category with
   | some c => validCategory c
   | none => false) &&
  (match j.priority with
   | some p => decide (1 ≤ p) && decide (p ≤ 10)
   | none => false)

/-- Per-message analysis flags (the analysisState entries). -/
structure AnalysisFlag where
  loading : Bool
  error : Option String
deriving DecidableEq, Repr

/-- Lookup in a string-keyed record object modelled as an association
list. -/
def lookupBy {α : Type} (m : List (String × α)) (k : String) : Option α :=
  (m.find? (fun p => p.1 == k)).map Prod.snd

/-- Functional update of a string-keyed record object, as performed by
an object spread with one computed key. -/
def insertBy {α : Type} (m : List (String × α)) (k : String) (v : α) :
    List (String × α) :=
  (k, v) :: m.filter (fun p => p.1 != k)

/-- Eligibility test of the scheduling effect: the message has no insight
record and no loading flag.  The error flag is not consulted. -/
def enrichEligible (analyses : List (String × EmailAnalysis))
    (analysisState : List (String × AnalysisFlag)) (email : GmailEmail) : Bool :=
  (lookupBy analyses email.id).isNone &&
    !(((lookupBy analysisState email.id).map AnalysisFlag.loading).getD false)

/-- Selection performed by one run of the scheduling effect: the first
message of the snapshot, in order, that is eligible. -/
def findNextEmail (emails : List GmailEmail)
    (analyses : List (String × EmailAnalysis))
    (analysisState : List (String × AnalysisFlag)) : Option GmailEmail :=
  emails.find? (enrichEligible analyses analysisState)

/-- Terminal outcome of one enrichment call: an http failure, a JSON
parse failure of the returned content, or a parsed payload. -/
inductive AiAnalysisOutcome where
  | httpError (message : String)
  | parseError (message : String)
  | parsed (json : RawAnalysisJson)
deriving DecidableEq, Repr

/-- Completion of one runAnalysis call for a message id: a failure
records the error on the analysis state and leaves the insight map
untouched; a parsed payload is spread over the defaults and stored
unconditionally. -/
def runAnalysisFinish (analyses : List (String × EmailAnalysis))
    (analysisState : List (String × AnalysisFlag)) (id : String)
    (outcome : AiAnalysisOutcome) :
    List (String × EmailAnalysis) × List (String × AnalysisFlag) :=
  match outcome with
  | .httpError msg => (analyses, insertBy analysisState id ⟨false, some msg⟩)
  | .parseError msg => (analyses, insertBy analysisState id ⟨false, some msg⟩)
  | .parsed j => (insertBy analyses id (spreadAnalysis j), insertBy analysisState id ⟨false, none⟩)

/-- Enrichment subsystem state: the snapshot, the insight map, the
analysis flags, and the multiset of message ids with an enrichment call
currently in flight. -/
structure EnrichSys where
  emails : List GmailEmail
  analyses : List (String × EmailAnalysis)
  analysisState : List (String × AnalysisFlag)
  outstanding : List String
deriving DecidableEq, Repr

/-- Transitions of the enrichment subsystem.  A schedule step is one run
of the scheduling effect (the effect re-runs on every change of the
snapshot, the insight map or the analysis flags, all of which every step
below changes): it starts runAnalysis for the selected message, whose
synchronous prologue sets the loading flag before the call suspends on
the network.  A finish step is the asynchronous continuation of an
outstanding call. -/
inductive EnrichStep : EnrichSys → EnrichSys → Prop where
  | schedule (s : EnrichSys) (email : GmailEmail)
      (hfind : findNextEmail s.emails s.analyses s.analysisState = some email) :
      EnrichStep s
        ⟨s.emails, s.analyses,
          insertBy s.analysisState email.id ⟨true, none⟩,
          email.id :: s.outstanding⟩
  | finish (s : EnrichSys) (id : String) (outcome : AiAnalysisOutcome)
      (hmem : id ∈ s.outstanding) :
      EnrichStep s
        ⟨s.emails,
          (runAnalysisFinish s.analyses s.analysisState id outcome).1,
          (runAnalysisFinish s.analyses s.analysisState id outcome).2,
          s.outstanding.erase id⟩

section Fixtures

/-- Example status record used by concrete instantiations. -/
def exampleStatus : GmailStatus := ⟨false, true, "", none, none⟩

/-- Example dashboard state used by concrete instantiations. -/
def dashS0 : DashState := ⟨[], none, exampleStatus, "tok0", some "tok0", some "rtok0"⟩

/-- Example message with a display-name sender header. -/
def emailJane : GmailEmail :=
  ⟨"m1", some "t1", "mid1", "Hi", "Jane Doe <jane@example.com>", "", "", none⟩

/-- Example blank draft record. -/
def blankDraft : ReplyDraftState := ⟨false, "   ", "", some "d0", some "s0", false, false, true, ""⟩

/-- Example non-blank draft record with no provider draft id yet. -/
def freshDraft : ReplyDraftState := ⟨false, "Hello", "", none, none, false, false, true, ""⟩

end Fixtures

/-- C4: when the token endpoint rejects a refresh grant (no access token
in the response), both stored credentials are removed from durable
storage, the in-memory token is cleared, and the session is
disconnected. -/
theorem refreshDeniedClearsCredentials_c4 (s : DashState) (r : TokenEndpointResponse)
    (h : r.accessToken = none) :
    (refreshAccessTokenStep s (some r)).storedAccessToken = none ∧
    (refreshAccessTokenStep s (some r)).storedRefreshToken = none ∧
    (refreshAccessTokenStep s (some r)).googleToken = "" ∧
    (refreshAccessTokenStep s (some r)).gmailStatus.connected = false := by
  simp [refreshAccessTokenStep, h, refreshFailureState]

/-- Witness for C4 at a concrete rejected response. -/
theorem refreshDeniedClearsCredentials_c4_witness :
    (refreshAccessTokenStep dashS0 (some ⟨none, some "invalid_grant"⟩)).storedAccessToken = none ∧
    (refreshAccessTokenStep dashS0 (some ⟨none, some "invalid_grant"⟩)).storedRefreshToken = none ∧
    (refreshAccessTokenStep dashS0 (some ⟨none, some "invalid_grant"⟩)).googleToken = "" ∧
    (refreshAccessTokenStep dashS0 (some ⟨none, some "invalid_grant"⟩)).gmailStatus.connected = false :=
  refreshDeniedClearsCredentials_c4 dashS0 ⟨none, some "invalid_grant"⟩ rfl

/-- C6: a blank draft (empty or whitespace-only content) makes both the
save and the send paths record the empty-draft error without issuing any
network request, and leaves content, draft id and save timestamp
unchanged. -/
theorem blankDraftNoop_c6 (draft : ReplyDraftState) (email : GmailEmail)
    (tokenPresent : Bool) (outcome : DraftCallOutcome) (now : String)
    (hblank : jsTrim draft.content = "") :
    saveDraftRequest draft email tokenPresent = none ∧
    sendReplyRequest draft email tokenPresent = none ∧
    (saveDraftEditsStep draft email tokenPresent outcome now).content = draft.content ∧
    (saveDraftEditsStep draft email tokenPresent outcome now).draftId = draft.draftId ∧
    (saveDraftEditsStep draft email tokenPresent outcome now).savedAt = draft.savedAt ∧
    (saveDraftEditsStep draft email tokenPresent outcome now).error = emptyDraftSaveText ∧
    (sendReplyStep draft email tokenPresent outcome).content = draft.content ∧
    (sendReplyStep draft email tokenPresent outcome).draftId = draft.draftId ∧
    (sendReplyStep draft email tokenPresent outcome).savedAt = draft.savedAt ∧
    (sendReplyStep draft email tokenPresent outcome).error = emptyDraftSendText := by
  simp [saveDraftRequest, sendReplyRequest, saveDraftEditsStep, sendReplyStep, hblank]

/-- Witness for C6 at a concrete whitespace-only draft. -/
theorem blankDraftNoop_c6_witness :
    saveDraftRequest blankDraft emailJane true = none ∧
    sendReplyRequest blankDraft emailJane true = none ∧
    (saveDraftEditsStep blankDraft emailJane true (DraftCallOutcome.ok none none) "t0").draftId
      = blankDraft.draftId :=
  ⟨(blankDraftNoop_c6 blankDraft emailJane true (DraftCallOutcome.ok none none) "t0" (by decide)).1,
   (blankDraftNoop_c6 blankDraft emailJane true (DraftCallOutcome.ok none none) "t0" (by decide)).2.1,
   (blankDraftNoop_c6 blankDraft emailJane true (DraftCallOutcome.ok none none) "t0" (by decide)).2.2.2.1⟩

/-- C5: with non-blank content and a derivable envelope, a save for a
record holding a draft id issues an update addressed to that same id
(never a create); a record without a draft id issues a create, and the id
assigned by the response is captured so that every later save issues an
update addressed to it. -/
theorem draftSaveIdempotentId_c5 (draft : ReplyDraftState) (email : GmailEmail)
    (env : ReplyEnvelope) (respId respMsgId : Option String) (now : String)
    (hbody : jsTrim draft.content ≠ "")
    (henv : getReplyEnvelope email = Except.ok env) :
    (∀ d, draft.draftId = some d →
      saveDraftRequest draft email true =
        some (GmailDraftRequest.updateDraft d
          ⟨env.recipient, env.subject, jsTrim draft.content, email.messageId⟩ email.threadId)) ∧
    (draft.draftId = none →
      saveDraftRequest draft email true =
        some (GmailDraftRequest.createDraft
          ⟨env.recipient, env.subject, jsTrim draft.content, email.messageId⟩ email.threadId)) ∧
    ((saveDraftEditsStep draft email true (DraftCallOutcome.ok respId respMsgId) now).draftId
      = respId.orElse (fun _ => respMsgId)) ∧
    (∀ d2, respId = some d2 →
      saveDraftRequest (saveDraftEditsStep draft email true (DraftCallOutcome.ok respId respMsgId) now)
          email true =
        some (GmailDraftRequest.updateDraft d2
          ⟨env.recipient, env.subject, jsTrim draft.content, email.messageId⟩ email.threadId)) := by
  refine ⟨?_, ?_, ?_, ?_⟩
  · intro d hd
    simp [saveDraftRequest, hbody, henv, hd]
  · intro hd
    simp [saveDraftRequest, hbody, henv, hd]
  · simp [saveDraftEditsStep, hbody, henv]
  · intro d2 hd2
    simp [saveDraftEditsStep, saveDraftRequest, hbody, henv, hd2]

/-- Witness for C5 at a concrete first save and its follow-up. -/
theorem draftSaveIdempotentId_c5_witness :
    saveDraftRequest freshDraft emailJane true =
      some (GmailDraftRequest.createDraft
        ⟨"jane@example.com", "Re: Hi", jsTrim freshDraft.content, emailJane.messageId⟩
        emailJane.threadId) ∧
    saveDraftRequest
        (saveDraftEditsStep freshDraft emailJane true (DraftCallOutcome.ok (some "d1") none) "t0")
        emailJane true =
      some (GmailDraftRequest.updateDraft "d1"
        ⟨"jane@example.com", "Re: Hi", jsTrim freshDraft.content, emailJane.messageId⟩
        emailJane.threadId) :=
  ⟨(draftSaveIdempotentId_c5 freshDraft emailJane ⟨"jane@example.com", "Re: Hi"⟩
      (some "d1") none "t0" (by decide) rfl).2.1 rfl,
   (draftSaveIdempotentId_c5 freshDraft emailJane ⟨"jane@example.com", "Re: Hi"⟩
      (some "d1") none "t0" (by decide) rfl).2.2.2 "d1" rfl⟩

/-- C1 amended: a sync cycle that fails — a failing list call (including
a 401) or any failing per-message detail fetch — leaves the published
snapshot and the selected-email id exactly as they were.  A non-401
failure changes only the status record; a 401 list failure additionally
clears the in-memory access token and removes the stored access token
(keeping the refresh token) before delegating recovery, so there the
change is not confined to the status/error fields. -/
theorem syncFailureKeepsSnapshot_c1 (s : DashState) (accessToken : Option String)
    (now : String) (listRes : ListInboxResult) (detail : String → Option RawGmailMessage)
    (hfail : listRes = ListInboxResult.http401 ∨
      (∃ m, listRes = ListInboxResult.httpError m) ∨
      (∃ ids, listRes = ListInboxResult.ok ids ∧ ids ≠ [] ∧
        ids.all (fun i => (detail i).isSome) = false)) :
    (fetchEmailsStep s accessToken now listRes detail).emails = s.emails ∧
    (fetchEmailsStep s accessToken now listRes detail).selectedEmailId = s.selectedEmailId ∧
    (listRes ≠ ListInboxResult.http401 →
      (fetchEmailsStep s accessToken now listRes detail).googleToken = s.googleToken ∧
      (fetchEmailsStep s accessToken now listRes detail).storedAccessToken = s.storedAccessToken ∧
      (fetchEmailsStep s accessToken now listRes detail).storedRefreshToken = s.storedRefreshToken) ∧
    (listRes = ListInboxResult.http401 →
      firstNonEmpty accessToken s.googleToken ≠ "" →
      (fetchEmailsStep s accessToken now listRes detail).googleToken = "" ∧
      (fetchEmailsStep s accessToken now listRes detail).storedAccessToken = none ∧
      (fetchEmailsStep s accessToken now listRes detail).storedRefreshToken = s.storedRefreshToken) := by
  rcases hfail with h401 | ⟨m, hm⟩ | ⟨ids, hids, hne, hall⟩
  · subst h401
    by_cases htok : firstNonEmpty accessToken s.googleToken = ""
    · simp [fetchEmailsStep, htok]
    · cases hrt : s.storedRefreshToken with
      | none => simp [fetchEmailsStep, htok, hrt]
      | some rt => simp [fetchEmailsStep, htok, hrt]
  · subst hm
    by_cases htok : firstNonEmpty accessToken s.googleToken = ""
    · simp [fetchEmailsStep, htok]
    · simp [fetchEmailsStep, htok, applyFetchFailure]
  · subst hids
    by_cases htok : firstNonEmpty accessToken s.googleToken = ""
    · simp [fetchEmailsStep, htok]
    · have hemp : ids.isEmpty = false := by
        cases ids with
        | nil => exact absurd rfl hne
        | cons a l => rfl
      simp [fetchEmailsStep, htok, hemp, hall, applyFetchFailure]

/-- C1 counterexample: a 401 on the inbox list call is a failing cycle
for which more than the status/error fields change — the synchronous
part of the recovery path clears the in-memory access token and removes
the stored access token — even though the snapshot and the selection are
preserved. -/
theorem syncFailureKeepsSnapshot_c1_cex :
    (fetchEmailsStep dashS0 none "t1" ListInboxResult.http401 (fun _ => none)).emails
      = dashS0.emails ∧
    (fetchEmailsStep dashS0 none "t1" ListInboxResult.http401 (fun _ => none)).selectedEmailId
      = dashS0.selectedEmailId ∧
    (fetchEmailsStep dashS0 none "t1" ListInboxResult.http401 (fun _ => none)).googleToken
      ≠ dashS0.googleToken ∧
    (fetchEmailsStep dashS0 none "t1" ListInboxResult.http401 (fun _ => none)).storedAccessToken
      ≠ dashS0.storedAccessToken :=
  ⟨rfl, rfl, by decide, by decide⟩

/-- Witness for C1 at a concrete failing detail fetch. -/
theorem syncFailureKeepsSnapshot_c1_witness :
    (fetchEmailsStep dashS0 none "t1" (ListInboxResult.ok ["m1"]) (fun _ => none)).emails
      = dashS0.emails ∧
    (fetchEmailsStep dashS0 none "t1" (ListInboxResult.ok ["m1"]) (fun _ => none)).selectedEmailId
      = dashS0.selectedEmailId :=
  ⟨(syncFailureKeepsSnapshot_c1 dashS0 none "t1" (ListInboxResult.ok ["m1"]) (fun _ => none)
      (Or.inr (Or.inr ⟨["m1"], rfl, by decide, by decide⟩))).1,
   (syncFailureKeepsSnapshot_c1 dashS0 none "t1" (ListInboxResult.ok ["m1"]) (fun _ => none)
      (Or.inr (Or.inr ⟨["m1"], rfl, by decide, by decide⟩))).2.1⟩

/-- Example fetched message used by concrete instantiations. -/
def rawMsgOne : RawGmailMessage :=
  ⟨"m1", some "t1", "snippet one", some "100",
    [⟨"Subject", "Hi"⟩, ⟨"From", "Jane Doe <jane@example.com>"⟩], "body one"⟩

/-- Example detail-fetch oracle returning rawMsgOne for its id. -/
def detailOne : String → Option RawGmailMessage :=
  fun i => if i = "m1" then some rawMsgOne else none

/-- C10: a successful sync cycle publishes the normalized snapshot,
selects the id of its first message (null selection exactly when the
snapshot is empty), marks the session connected and updates the last-sync
timestamp; an empty id list counts as success and publishes the empty
snapshot with a null selection. -/
theorem syncSuccessSelection_c10 (s : DashState) (accessToken : Option String)
    (now : String) (ids : List String) (detail : String → Option RawGmailMessage)
    (htok : firstNonEmpty accessToken s.googleToken ≠ "")
    (hall : ids.all (fun i => (detail i).isSome) = true) :
    (fetchEmailsStep s accessToken now (ListInboxResult.ok ids) detail).selectedEmailId
      = ((fetchEmailsStep s accessToken now (ListInboxResult.ok ids) detail).emails.head?).map
          GmailEmail.id ∧
    (fetchEmailsStep s accessToken now (ListInboxResult.ok ids) detail).gmailStatus.lastSync
      = some now ∧
    (fetchEmailsStep s accessToken now (ListInboxResult.ok ids) detail).gmailStatus.connected
      = true ∧
    (ids = [] →
      (fetchEmailsStep s accessToken now (ListInboxResult.ok ids) detail).emails = [] ∧
      (fetchEmailsStep s accessToken now (ListInboxResult.ok ids) detail).selectedEmailId = none) ∧
    (ids ≠ [] →
      (fetchEmailsStep s accessToken now (ListInboxResult.ok ids) detail).emails ≠ []) := by
  by_cases hids : ids = []
  · subst hids
    simp [fetchEmailsStep, htok]
  · have hemp : ids.isEmpty = false := by
      cases ids with
      | nil => exact absurd rfl hids
      | cons a l => rfl
    refine ⟨?_, ?_, ?_, fun h => absurd h hids, fun _ => ?_⟩
    · simp [fetchEmailsStep, htok, hemp, hall]
    · simp [fetchEmailsStep, htok, hemp, hall]
    · simp [fetchEmailsStep, htok, hemp, hall]
    · cases ids with
      | nil => exact absurd rfl hids
      | cons a l =>
        have ha : (detail a).isSome = true := by
          have := List.all_eq_true.mp hall a (List.mem_cons_self a l)
          simpa using this
        obtain ⟨m, hm⟩ := Option.isSome_iff_exists.mp ha
        simp [fetchEmailsStep, htok, hall, hm, normalizeMessage]

/-- Witness for C10 at a concrete one-message cycle. -/
theorem syncSuccessSelection_c10_witness :
    (fetchEmailsStep dashS0 none "t1" (ListInboxResult.ok ["m1"]) detailOne).selectedEmailId
      = ((fetchEmailsStep dashS0 none "t1" (ListInboxResult.ok ["m1"]) detailOne).emails.head?).map
          GmailEmail.id ∧
    (fetchEmailsStep dashS0 none "t1" (ListInboxResult.ok ["m1"]) detailOne).gmailStatus.lastSync
      = some "t1" :=
  ⟨(syncSuccessSelection_c10 dashS0 none "t1" ["m1"] detailOne (by decide) (by decide)).1,
   (syncSuccessSelection_c10 dashS0 none "t1" ["m1"] detailOne (by decide) (by decide)).2.1⟩

/-- Characterization of a successful find?: the found element satisfies
the test, and everything before it in the list fails it. -/
theorem find?_eq_some_split {α : Type} {p : α → Bool} {l : List α} {a : α}
    (h : l.find? p = some a) :
    p a = true ∧ ∃ pre post, l = pre ++ a :: post ∧ ∀ x ∈ pre, p x = false := by
  induction l with
  | nil => simp at h
  | cons b rest ih =>
    by_cases hb : p b = true
    · rw [List.find?_cons_of_pos _ hb] at h
      obtain rfl : b = a := by simpa using h
      exact ⟨hb, [], rest, rfl, by simp⟩
    · have hb' : ¬ p b = true := hb
      rw [List.find?_cons_of_neg _ hb'] at h
      obtain ⟨hpa, pre, post, heq, hpre⟩ := ih h
      refine ⟨hpa, b :: pre, post, by rw [heq]; rfl, ?_⟩
      intro x hx
      rcases List.mem_cons.mp hx with rfl | hx
      · exact Bool.not_eq_true _ ▸ Bool.of_not_eq_true hb'
      · exact hpre x hx

section EnrichFixtures

/-- First example message of the enrichment snapshot. -/
def emailOne : GmailEmail := ⟨"m1", none, "", "s1", "a@b.c", "", "", none⟩

/-- Second example message of the enrichment snapshot. -/
def emailTwo : GmailEmail := ⟨"m2", none, "", "s2", "d@e.f", "", "", none⟩

/-- Error text of a failed completion call. -/
def openAiFailedText : String := "OpenAI call failed."

/-- Initial enrichment state: two messages, nothing analyzed, nothing in
flight. -/
def enrichS0 : EnrichSys := ⟨[emailOne, emailTwo], [], [], []⟩

/-- State after the scheduling effect starts the first message. -/
def enrichS1 : EnrichSys :=
  ⟨[emailOne, emailTwo], [], [("m1", ⟨true, none⟩)], ["m1"]⟩

/-- State after the first enrichment call fails. -/
def enrichS2fail : EnrichSys :=
  ⟨[emailOne, emailTwo], [], [("m1", ⟨false, some openAiFailedText⟩)], []⟩

/-- State after the scheduling effect starts the second message while the
first call is still outstanding. -/
def enrichS2two : EnrichSys :=
  ⟨[emailOne, emailTwo], [],
    [("m2", ⟨true, none⟩), ("m1", ⟨true, none⟩)], ["m2", "m1"]⟩

end EnrichFixtures

/-- C2 counterexample: after the first message fails enrichment, the
error is recorded, yet the very next scheduling step selects that same
failed message again — the eligibility test ignores the error flag — so
the failed message is automatically retried instead of the queue
proceeding to the next unanalyzed message. -/
theorem enrichFailureRetry_c2_cex :
    EnrichStep enrichS0 enrichS1 ∧
    EnrichStep enrichS1 enrichS2fail ∧
    lookupBy enrichS2fail.analysisState "m1" = some ⟨false, some openAiFailedText⟩ ∧
    lookupBy enrichS2fail.analyses "m1" = none ∧
    findNextEmail enrichS2fail.emails enrichS2fail.analyses enrichS2fail.analysisState
      = some emailOne ∧
    emailOne ≠ emailTwo :=
  ⟨EnrichStep.schedule enrichS0 emailOne (by decide),
   EnrichStep.finish enrichS1 "m1" (AiAnalysisOutcome.httpError openAiFailedText) (by decide),
   by decide, by decide, by decide, by decide⟩

/-- Lookup after a spread-update finds the inserted value. -/
theorem lookupBy_insertBy {α : Type} (m : List (String × α)) (k : String) (v : α) :
    lookupBy (insertBy m k v) k = some v := by
  simp [lookupBy, insertBy, List.find?_cons_of_pos]

/-- C2 amended: a failed enrichment records the failure as an error on
that message (loading cleared, message captured) and leaves the insight
map unchanged, but the scheduling eligibility test does not exclude
errored messages: an errored, unanalyzed message at the head of the
snapshot is selected again by the next scheduling step (auto-retry)
instead of the queue moving past it. -/
theorem enrichFailureRecorded_c2_amended
    (analyses : List (String × EmailAnalysis)) (st : List (String × AnalysisFlag))
    (id msg : String) (e : GmailEmail) (rest : List GmailEmail)
    (outcome : AiAnalysisOutcome)
    (houtcome : outcome = AiAnalysisOutcome.httpError msg ∨
      outcome = AiAnalysisOutcome.parseError msg)
    (hnoins : lookupBy analyses e.id = none)
    (hflag : ((lookupBy st e.id).map AnalysisFlag.loading).getD false = false) :
    (runAnalysisFinish analyses st id outcome).1 = analyses ∧
    lookupBy (runAnalysisFinish analyses st id outcome).2 id = some ⟨false, some msg⟩ ∧
    findNextEmail (e :: rest) analyses st = some e := by
  have hfind : findNextEmail (e :: rest) analyses st = some e := by
    have helig : enrichEligible analyses st e = true := by
      simp [enrichEligible, hnoins, hflag]
    show (e :: rest).find? (enrichEligible analyses st) = some e
    exact List.find?_cons_of_pos _ helig
  rcases houtcome with rfl | rfl
  · exact ⟨rfl, lookupBy_insertBy st id ⟨false, some msg⟩, hfind⟩
  · exact ⟨rfl, lookupBy_insertBy st id ⟨false, some msg⟩, hfind⟩

/-- Witness for the amended C2 at the concrete failed first message. -/
theorem enrichFailureRecorded_c2_amended_witness :
    (runAnalysisFinish [] [] "m1" (AiAnalysisOutcome.httpError openAiFailedText)).1 = [] ∧
    lookupBy (runAnalysisFinish [] [] "m1" (AiAnalysisOutcome.httpError openAiFailedText)).2 "m1"
      = some ⟨false, some openAiFailedText⟩ ∧
    findNextEmail [emailOne, emailTwo] [] [] = some emailOne :=
  enrichFailureRecorded_c2_amended [] [] "m1" openAiFailedText emailOne [emailTwo]
    (AiAnalysisOutcome.httpError openAiFailedText) (Or.inl rfl) (by decide) (by decide)

/-- C3 counterexample: the scheduling effect re-fires on the analysis
state change made by starting the first call, and — with the first
message now flagged loading — starts the second message while the first
call is still outstanding: two enrichment calls are outstanding at once,
refuting the one-at-a-time bound. -/
theorem enrichConcurrencyBound_c3_cex :
    EnrichStep enrichS0 enrichS1 ∧
    EnrichStep enrichS1 enrichS2two ∧
    enrichS1.outstanding ≠ [] ∧
    enrichS2two.outstanding.length = 2 :=
  ⟨EnrichStep.schedule enrichS0 emailOne (by decide),
   EnrichStep.schedule enrichS1 emailTwo (by decide),
   by decide, by decide⟩

/-- C3 amended: each scheduling step starts enrichment for exactly one
message — the first one in snapshot order lacking both an insight record
and a loading flag — and each transition adds at most one outstanding
call; however, because steps may fire while earlier calls are still in
flight, the number of outstanding calls is not bounded by one. -/
theorem enrichScheduleStep_c3_amended (s t : EnrichSys) (hstep : EnrichStep s t) :
    t.outstanding.length ≤ s.outstanding.length + 1 ∧
    (∀ id, id ∈ t.outstanding → id ∉ s.outstanding →
      ∃ e pre post,
        findNextEmail s.emails s.analyses s.analysisState = some e ∧
        e.id = id ∧
        s.emails = pre ++ e :: post ∧
        enrichEligible s.analyses s.analysisState e = true ∧
        ∀ x ∈ pre, enrichEligible s.analyses s.analysisState x = false) := by
  cases hstep with
  | schedule email hfind =>
    refine ⟨by simp, ?_⟩
    intro id hmem hnot
    have hid : id = email.id := by
      rcases List.mem_cons.mp hmem with h | h
      · exact h
      · exact absurd h hnot
    obtain ⟨hp, pre, post, heq, hpre⟩ := find?_eq_some_split (p := enrichEligible s.analyses s.analysisState) hfind
    exact ⟨email, pre, post, hfind, hid.symm, heq, hp, hpre⟩
  | finish id outcome hmem =>
    refine ⟨?_, ?_⟩
    · have h1 : (s.outstanding.erase id).length ≤ s.outstanding.length :=
        (List.erase_sublist id s.outstanding).length_le
      show (s.outstanding.erase id).length ≤ s.outstanding.length + 1
      omega
    · intro i hi hni
      exact absurd (List.mem_of_mem_erase hi) hni

/-- Witness for the amended C3 at the concrete first scheduling step. -/
theorem enrichScheduleStep_c3_amended_witness :
    enrichS1.outstanding.length ≤ enrichS0.outstanding.length + 1 :=
  (enrichScheduleStep_c3_amended enrichS0 enrichS1
    (EnrichStep.schedule enrichS0 emailOne (by decide))).1

/-- Parsed payload violating the schema: category outside the closed
enum and priority outside the one-to-ten bounds. -/
def bogusAnalysisJson : RawAnalysisJson :=
  ⟨some "s", some "Bogus", some 99, some [], some [], some []⟩

/-- C9 counterexample: a payload failing schema validation is stored
unchanged as the insight record of the message, with no error recorded —
the enrichment does not fail on an invalid payload. -/
theorem enrichmentNoSchemaValidation_c9_cex :
    schemaValidAnalysis bogusAnalysisJson = false ∧
    (runAnalysisFinish [] [] "m1" (AiAnalysisOutcome.parsed bogusAnalysisJson)).1
      = [("m1", spreadAnalysis bogusAnalysisJson)] ∧
    (spreadAnalysis bogusAnalysisJson).category = "Bogus" ∧
    validCategory "Bogus" = false ∧
    (spreadAnalysis bogusAnalysisJson).priority = 99 ∧
    lookupBy (runAnalysisFinish [] [] "m1" (AiAnalysisOutcome.parsed bogusAnalysisJson)).2 "m1"
      = some ⟨false, none⟩ :=
  ⟨by decide, rfl, rfl, by decide, rfl, by decide⟩

/-- C9 amended: the client performs no schema validation on a parsed
enrichment payload: any JSON-parseable payload — schema-valid or not —
is merged over the defaults and stored as the insight record of the
message, with the analysis flags recording success; only a transport
failure or a JSON parse failure marks the enrichment errored.  Schema
enforcement is only requested from the provider through the declared
response format. -/
theorem enrichmentStoresUnvalidated_c9_amended
    (analyses : List (String × EmailAnalysis)) (st : List (String × AnalysisFlag))
    (id : String) (j : RawAnalysisJson)
    (_hinvalid : schemaValidAnalysis j = false) :
    lookupBy (runAnalysisFinish analyses st id (AiAnalysisOutcome.parsed j)).1 id
      = some (spreadAnalysis j) ∧
    lookupBy (runAnalysisFinish analyses st id (AiAnalysisOutcome.parsed j)).2 id
      = some ⟨false, none⟩ :=
  ⟨lookupBy_insertBy analyses id (spreadAnalysis j), lookupBy_insertBy st id ⟨false, none⟩⟩

/-- Witness for the amended C9 at the concrete invalid payload. -/
theorem enrichmentStoresUnvalidated_c9_amended_witness :
    lookupBy (runAnalysisFinish [] [] "m2" (AiAnalysisOutcome.parsed bogusAnalysisJson)).1 "m2"
      = some (spreadAnalysis bogusAnalysisJson) ∧
    lookupBy (runAnalysisFinish [] [] "m2" (AiAnalysisOutcome.parsed bogusAnalysisJson)).2 "m2"
      = some ⟨false, none⟩ :=
  enrichmentStoresUnvalidated_c9_amended [] [] "m2" bogusAnalysisJson (by decide)

/-- Example message whose sender header holds no address-shaped token. -/
def invalidSenderEmail : GmailEmail := ⟨"m3", none, "", "Hi", "invalidsender", "", "", none⟩

/-- C8 counterexample: a sender header containing no address-shaped token
(it holds no at sign at all) still yields a reply envelope — the
single-token sender is passed through as the recipient without any
address-shape check — instead of failing with the unparseable-sender
error. -/
theorem unparseableSenderCheck_c8_cex :
    ("invalidsender".data.contains '@') = false ∧
    extractEmailAddress "invalidsender" = "invalidsender" ∧
    getReplyEnvelope invalidSenderEmail = Except.ok ⟨"invalidsender", "Re: Hi"⟩ :=
  ⟨by decide, by decide, rfl⟩

/-- C8 amended: recipient extraction supports both the bare-address and
the display-name-with-angle-brackets sender forms, and the envelope
derivation fails with the unparseable-sender error exactly when the
extracted address is the empty string — which happens for an empty
sender, for angle-bracket content that trims to nothing, or for a sender
containing a space but no whitespace-separated token with both an at sign
and a dot; a space-free sender without angle brackets is passed through
as the recipient with no address-shape validation. -/
theorem replyRecipientExtraction_c8_amended :
    extractEmailAddress "Jane Doe <jane@example.com>" = "jane@example.com" ∧
    extractEmailAddress "jane@example.com" = "jane@example.com" ∧
    extractEmailAddress "Jane Doe" = "" ∧
    (∀ email : GmailEmail,
      getReplyEnvelope email = Except.error unparseableSenderText ↔
        extractEmailAddress email.sender = "") := by
  refine ⟨by decide, by decide, by decide, ?_⟩
  intro email
  unfold getReplyEnvelope
  by_cases h : extractEmailAddress email.sender = ""
  · simp [h]
  · simp [h]

/-- A list fixed by dropWhile has a head failing the test. -/
theorem ws_false_of_dropWhile_cons {c : Char} {l : List Char}
    (h : (c :: l).dropWhile isJsSpace = c :: l) : isJsSpace c = false := by
  have h2 := List.dropWhile_eq_self_iff.mp h (by simp)
  simpa using h2

/-- A left factor of a list fixed by dropWhile is itself fixed. -/
theorem dropWhile_ws_self_of_append_left {y z : List Char}
    (h : (y ++ z).dropWhile isJsSpace = y ++ z) : y.dropWhile isJsSpace = y := by
  cases y with
  | nil => rfl
  | cons c u =>
    have h' : (c :: (u ++ z)).dropWhile isJsSpace = c :: (u ++ z) := by simpa using h
    have hc : isJsSpace c = false := ws_false_of_dropWhile_cons h'
    rw [List.dropWhile_cons_of_neg (by simp [hc])]

/-- The JavaScript trim is idempotent at the character-list level. -/
theorem trimChars_idem (l : List Char) : trimChars (trimChars l) = trimChars l := by
  obtain ⟨z, hz⟩ := List.rdropWhile_prefix isJsSpace (l.dropWhile isJsSpace)
  have hAfix : (l.dropWhile isJsSpace).dropWhile isJsSpace = l.dropWhile isJsSpace :=
    List.dropWhile_idempotent _ _
  have h1 : ((l.dropWhile isJsSpace).rdropWhile isJsSpace).dropWhile isJsSpace
      = (l.dropWhile isJsSpace).rdropWhile isJsSpace := by
    apply dropWhile_ws_self_of_append_left (z := z)
    rw [hz]
    exact hAfix
  calc trimChars (trimChars l)
      = (((l.dropWhile isJsSpace).rdropWhile isJsSpace).dropWhile
          isJsSpace).rdropWhile isJsSpace := rfl
    _ = ((l.dropWhile isJsSpace).rdropWhile isJsSpace).rdropWhile isJsSpace := by rw [h1]
    _ = (l.dropWhile isJsSpace).rdropWhile isJsSpace := List.rdropWhile_idempotent _ _
    _ = trimChars l := rfl

/-- A character list fixed by trim is fixed by dropping leading
whitespace. -/
theorem dropWhile_ws_of_trimChars_fix {b : List Char} (hb : trimChars b = b) :
    b.dropWhile isJsSpace = b := by
  have hpre : b <+: b.dropWhile isJsSpace := by
    conv_lhs => rw [← hb]
    exact List.rdropWhile_prefix isJsSpace (b.dropWhile isJsSpace)
  have hsuf : b.dropWhile isJsSpace <:+ b := List.dropWhile_suffix isJsSpace
  exact (hpre.eq_of_length (le_antisymm hpre.length_le hsuf.length_le)).symm

/-- A character list fixed by trim has a reverse fixed by dropping
leading whitespace. -/
theorem dropWhile_ws_reverse_of_trimChars_fix {b : List Char} (hb : trimChars b = b) :
    b.reverse.dropWhile isJsSpace = b.reverse := by
  have h1 : b.dropWhile isJsSpace = b := dropWhile_ws_of_trimChars_fix hb
  have h2 : trimChars b = (b.reverse.dropWhile isJsSpace).reverse := by
    unfold trimChars
    rw [h1]
  rw [hb] at h2
  have h3 := congrArg List.reverse h2
  rw [List.reverse_reverse] at h3
  exact h3.symm

/-- Prepending the reply marker to a nonempty trim-fixed list yields a
trim-fixed list. -/
theorem trimChars_marker_append {b : List Char} (hb : trimChars b = b) (hne : b ≠ []) :
    trimChars (['R', 'e', ':', ' '] ++ b) = ['R', 'e', ':', ' '] ++ b := by
  have hleft : (['R', 'e', ':', ' '] ++ b).dropWhile isJsSpace
      = ['R', 'e', ':', ' '] ++ b := by
    show ('R' :: (['e', ':', ' '] ++ b)).dropWhile isJsSpace = 'R' :: (['e', ':', ' '] ++ b)
    rw [List.dropWhile_cons_of_neg (by decide)]
  have hrev : b.reverse.dropWhile isJsSpace = b.reverse :=
    dropWhile_ws_reverse_of_trimChars_fix hb
  have hrevne : b.reverse ≠ [] := by
    intro h
    exact hne (by simpa using congrArg List.reverse h)
  have hright : (['R', 'e', ':', ' '] ++ b).reverse.dropWhile isJsSpace
      = (['R', 'e', ':', ' '] ++ b).reverse := by
    rw [List.reverse_append]
    cases hbr : b.reverse with
    | nil => exact absurd hbr hrevne
    | cons c u =>
      have hcfix : (c :: u).dropWhile isJsSpace = c :: u := by rw [← hbr]; exact hrev
      have hc : isJsSpace c = false := ws_false_of_dropWhile_cons hcfix
      show (c :: (u ++ ['R', 'e', ':', ' '].reverse)).dropWhile isJsSpace
          = c :: (u ++ ['R', 'e', ':', ' '].reverse)
      rw [List.dropWhile_cons_of_neg (by simp [hc])]
  unfold trimChars
  rw [hleft, hright, List.reverse_reverse]

/-- Two strings with the same character data are equal. -/
theorem string_eq_of_data {a b : String} (h : a.data = b.data) : a = b :=
  congrArg String.mk h

/-- Trim at the string level fixes a string whose data is trim-fixed. -/
theorem jsTrim_eq_self_of {s : String} (h : trimChars s.data = s.data) : jsTrim s = s := by
  unfold jsTrim
  rw [h]

/-- A string whose data is nonempty is not the empty string. -/
theorem string_ne_empty_of_data {s : String} (h : s.data ≠ []) : s ≠ "" := by
  intro heq
  apply h
  rw [heq]

/-- Normalizing a nonempty trim-fixed subject already carrying the
marker leaves it unchanged. -/
theorem normalizeReplySubject_fixed (b : String)
    (hfix : trimChars b.data = b.data) (hne : b.data ≠ [])
    (hg : rePrefChars.isPrefixOf (jsToLower b).data = true) :
    normalizeReplySubject b = b := by
  have htrim : jsTrim b = b := jsTrim_eq_self_of hfix
  have hbne : b ≠ "" := string_ne_empty_of_data hne
  simp [normalizeReplySubject, htrim, hbne, hg]

/-- Normalizing the marker prepended to a nonempty trim-fixed subject
leaves it unchanged. -/
theorem normalizeReplySubject_marker_append (b : String)
    (hfix : trimChars b.data = b.data) (hne : b.data ≠ []) :
    normalizeReplySubject (reMarkerText ++ b) = reMarkerText ++ b := by
  have hdata : (reMarkerText ++ b).data = ['R', 'e', ':', ' '] ++ b.data := rfl
  have htrim : jsTrim (reMarkerText ++ b) = reMarkerText ++ b := by
    apply jsTrim_eq_self_of
    rw [hdata]
    exact trimChars_marker_append hfix hne
  have htne : reMarkerText ++ b ≠ "" := by
    apply string_ne_empty_of_data
    rw [hdata]
    simp
  have hg : rePrefChars.isPrefixOf (jsToLower (reMarkerText ++ b)).data = true := by
    show rePrefChars.isPrefixOf ((reMarkerText ++ b).data.map Char.toLower) = true
    rw [hdata]
    rfl
  simp [normalizeReplySubject, htrim, htne, hg]

/-- C7: reply-subject normalization is idempotent on every subject, and
on a trimmed, nonempty subject that does not already carry the reply
marker (the case-insensitive check of the code), both the bare subject
and the marker-prefixed subject normalize to the marker-prefixed
subject — the marker is added exactly once and never doubled. -/
theorem replySubjectNormalization_c7 :
    (∀ s : String,
      normalizeReplySubject (normalizeReplySubject s) = normalizeReplySubject s) ∧
    (∀ X : String, jsTrim X = X → X ≠ "" →
      rePrefChars.isPrefixOf (jsToLower X).data = false →
      normalizeReplySubject X = reMarkerText ++ X ∧
      normalizeReplySubject (reMarkerText ++ X) = reMarkerText ++ X) := by
  constructor
  · intro s
    by_cases hb0 : jsTrim s = ""
    · have hXfix : trimChars noSubjectText.data = noSubjectText.data := by decide
      have hXne : noSubjectText.data ≠ [] := by decide
      have hg : rePrefChars.isPrefixOf (jsToLower noSubjectText).data = false := by decide
      have h1 : normalizeReplySubject s = reMarkerText ++ noSubjectText := by
        simp [normalizeReplySubject, hb0, hg]
      rw [h1, normalizeReplySubject_marker_append noSubjectText hXfix hXne]
    · have hXfix : trimChars (jsTrim s).data = (jsTrim s).data := by
        show trimChars (trimChars s.data) = trimChars s.data
        exact trimChars_idem s.data
      have hXne : (jsTrim s).data ≠ [] := by
        intro h
        exact hb0 (string_eq_of_data h)
      by_cases hg : rePrefChars.isPrefixOf (jsToLower (jsTrim s)).data = true
      · have h1 : normalizeReplySubject s = jsTrim s := by
          simp [normalizeReplySubject, hb0, hg]
        rw [h1, normalizeReplySubject_fixed (jsTrim s) hXfix hXne hg]
      · have hg' : rePrefChars.isPrefixOf (jsToLower (jsTrim s)).data = false := by
          cases hval : rePrefChars.isPrefixOf (jsToLower (jsTrim s)).data with
          | true => exact absurd hval hg
          | false => rfl
        have h1 : normalizeReplySubject s = reMarkerText ++ jsTrim s := by
          simp [normalizeReplySubject, hb0, hg']
        rw [h1, normalizeReplySubject_marker_append (jsTrim s) hXfix hXne]
  · intro X htrim hne hg
    have hXfix : trimChars X.data = X.data := by
      have := congrArg String.data htrim
      simpa [jsTrim] using this
    have hXne : X.data ≠ [] := by
      intro h
      exact hne (string_eq_of_data h)
    constructor
    · simp [normalizeReplySubject, htrim, hne, hg]
    · exact normalizeReplySubject_marker_append X hXfix hXne

/-- Witness for C7 at a concrete subject without the marker. -/
theorem replySubjectNormalization_c7_witness :
    normalizeReplySubject "Hello" = reMarkerText ++ "Hello" ∧
    normalizeReplySubject (reMarkerText ++ "Hello") = reMarkerText ++ "Hello" :=
  replySubjectNormalization_c7.2 "Hello" (by decide) (by decide) (by decide)
